import Mathlib

/-!
Verification of the SynologyIndexer motion-detection pipeline.

This file gives a shallow embedding of the core of the repository:

* `src/detector.py` — the grace-period segmentation state machine of
  `MotionDetector.analyze_video`, `_get_adaptive_thresholds` and
  `_finalize_segment`.  The pixel-level signal (background subtraction,
  contour areas, frame brightness) is produced by external OpenCV/YOLO
  collaborators, so the embedding takes the per-frame activity areas, the
  ambient-brightness estimate, the fps, and an optional classifier as inputs.
* `src/database.py` — the SQLite store (`videos` and `motion_segments`
  tables) as lists of rows, with `is_processed`, `mark_processed`,
  `add_motion_segment` and `cleanup_deleted_videos` translated to pure
  state-passing functions.  `INSERT OR REPLACE` together with
  `PRAGMA foreign_keys = ON` deletes the conflicting parent row and
  cascade-deletes its child segments before inserting, which the embedding
  models explicitly.
* `src/processor.py` — the orchestration of `run_scan`
  (cleanup, outstanding-set computation, per-item saving) and the worker
  entry points, with per-item analysis outcomes supplied as a function
  parameter since actual video decoding is external.

Machine floats of the Python source are modelled as rationals; `int(...)`
casts are modelled as truncation toward zero.
-/

attribute [local semireducible] Rat.mul Rat.inv Rat.add Rat.sub Rat.ofScientific

/-! ## Detector configuration and adaptive thresholds (src/detector.py) -/

/-- Configuration keys read by `MotionDetector` via `self.config.get`, with the
defaults used in the source. -/
structure DetectorConfig where
  sampleEveryNFrames : Nat := 2
  minMotionArea : Nat := 800
  backgroundVarThreshold : Nat := 16
  endGraceFrames : Nat := 6
  minSegmentDuration : Rat := 1/2
deriving DecidableEq

/-- Threshold profile returned by `MotionDetector._get_adaptive_thresholds`. -/
structure Thresholds where
  minMotionArea : Nat
  binaryThreshold : Nat
  backgroundVarThreshold : Nat
deriving DecidableEq

/-- Python `int(...)` applied to a rational: truncation toward zero. -/
def pyInt (q : Rat) : Int :=
  if q < 0 then -(Int.floor (-q)) else Int.floor q

/-- Embedding of `MotionDetector._get_adaptive_thresholds` (detector.py
lines 161-174): brightness below 60 scales the minimum motion area by 1.5 and
tightens the sensitivity knobs; otherwise the configured defaults are used. -/
def getAdaptiveThresholds (cfg : DetectorConfig) (brightness : Rat) : Thresholds :=
  if brightness < 60 then
    { minMotionArea := (pyInt ((cfg.minMotionArea : Rat) * 1.5)).toNat
      binaryThreshold := 120
      backgroundVarThreshold := (pyInt ((cfg.backgroundVarThreshold : Rat) * 0.7)).toNat }
  else
    { minMotionArea := cfg.minMotionArea
      binaryThreshold := 150
      backgroundVarThreshold := cfg.backgroundVarThreshold }

/-! ## Segment state machine (src/detector.py, analyze_video) -/

/-- The in-memory `current_segment` dict of `analyze_video`. -/
structure OpenSegment where
  startFrame : Nat
  startTime : Rat
  maxArea : Nat
  previewFrames : List Nat
  graceCounter : Nat
deriving DecidableEq

/-- The `MotionSegment` dataclass of detector.py. -/
structure MotionSegment where
  startTime : Rat
  endTime : Rat
  maxMotionArea : Nat
  detectedObjects : String
  previewFrames : List Nat
deriving DecidableEq

/-- Embedding of `MotionDetector._finalize_segment` (detector.py lines
176-212).  A candidate shorter than `min_segment_duration` is discarded
(returns `none`).  Preview-frame extraction keeps the first five recorded
frame indices (all `cap.read` calls are modelled as succeeding); the optional
YOLO classifier is applied to the first saved preview frame. -/
def finalizeSegment (cfg : DetectorConfig) (yolo : Option (Nat → String))
    (sd : OpenSegment) (endTime : Rat) : Option MotionSegment :=
  if endTime - sd.startTime < cfg.minSegmentDuration then none
  else
    let savedPreviews := sd.previewFrames.take 5
    let detectedObjects :=
      match yolo, savedPreviews with
      | some classify, f :: _ => classify f
      | _, _ => ""
    some { startTime := sd.startTime
           endTime := endTime
           maxMotionArea := sd.maxArea
           detectedObjects := detectedObjects
           previewFrames := savedPreviews }

/-- One sampled-frame transition of the `analyze_video` loop body (detector.py
lines 97-126): given the frame index, its timestamp and its activity area,
update the open-segment state and the accumulated segment list. -/
def applyObservation (cfg : DetectorConfig) (th : Thresholds)
    (yolo : Option (Nat → String)) (frameIdx : Nat) (currentTime : Rat)
    (area : Nat) (cur : Option OpenSegment) (acc : List MotionSegment) :
    Option OpenSegment × List MotionSegment :=
  if area ≥ th.minMotionArea then
    match cur with
    | none =>
        (some { startFrame := frameIdx, startTime := currentTime, maxArea := area
                previewFrames := [frameIdx], graceCounter := 0 }, acc)
    | some seg =>
        (some { seg with
                  maxArea := max seg.maxArea area
                  graceCounter := 0
                  previewFrames :=
                    if seg.previewFrames.length < 5 then
                      seg.previewFrames ++ [frameIdx]
                    else seg.previewFrames }, acc)
  else
    match cur with
    | none => (none, acc)
    | some seg =>
        if seg.graceCounter + 1 ≥ cfg.endGraceFrames then
          match finalizeSegment cfg yolo { seg with graceCounter := seg.graceCounter + 1 }
              currentTime with
          | some m => (none, acc ++ [m])
          | none => (none, acc)
        else (some { seg with graceCounter := seg.graceCounter + 1 }, acc)

/-- The frame-reading loop of `analyze_video` (detector.py lines 74-126):
`frame_idx` counts every decoded frame and only every `sample_every_n_frames`-th
frame is analyzed.  Returns the open segment, the finished segments and the
final frame index. -/
def analyzeLoop (cfg : DetectorConfig) (th : Thresholds)
    (yolo : Option (Nat → String)) (fps : Rat) :
    Nat → Option OpenSegment → List MotionSegment → List Nat →
    Option OpenSegment × List MotionSegment × Nat
  | frameIdx, cur, acc, [] => (cur, acc, frameIdx)
  | frameIdx, cur, acc, area :: rest =>
    let frameIdx2 := frameIdx + 1
    if frameIdx2 % cfg.sampleEveryNFrames ≠ 0 then
      analyzeLoop cfg th yolo fps frameIdx2 cur acc rest
    else
      let st := applyObservation cfg th yolo frameIdx2 ((frameIdx2 : Rat) / fps)
        area cur acc
      analyzeLoop cfg th yolo fps frameIdx2 st.1 st.2 rest

/-- Metadata dict returned by `analyze_video` (detector.py lines 136-142). -/
structure VideoMeta where
  brightness : Rat
  brightnessFactor : String
  thresholds : Thresholds
  totalFrames : Nat
  fps : Rat
deriving DecidableEq

/-- Embedding of `MotionDetector.analyze_video` (detector.py lines 44-144).
The video is represented by its per-frame activity areas (the maximal contour
area found after background subtraction, produced by the external OpenCV
collaborator), its raw fps (`cap.get(FPS) or 30`: a falsy value falls back to
30) and the ambient-brightness estimate computed by `_calculate_brightness`
from the raw pixels. -/
def analyzeVideo (cfg : DetectorConfig) (yolo : Option (Nat → String))
    (fpsRaw : Rat) (brightness : Rat) (frames : List Nat) :
    List MotionSegment × VideoMeta :=
  let fps := if fpsRaw = 0 then 30 else fpsRaw
  let th := getAdaptiveThresholds cfg brightness
  let r := analyzeLoop cfg th yolo fps 0 none [] frames
  let segs :=
    match r.1 with
    | some seg =>
        match finalizeSegment cfg yolo seg ((r.2.2 : Rat) / fps) with
        | some m => r.2.1 ++ [m]
        | none => r.2.1
    | none => r.2.1
  (segs,
   { brightness := brightness
     brightnessFactor := if brightness < 60 then "dark" else "normal"
     thresholds := th
     totalFrames := frames.length
     fps := fps })

/-! ## Concrete inputs for the grace-period law (claim C2) -/

/-- The activity sequence of the grace-period law: frames 3-5 active, a gap of
exactly six sub-threshold frames, then frames 12-13 active. -/
def activitySeqC2 : List Nat :=
  [0, 0, 1000, 1000, 1000, 0, 0, 0, 0, 0, 0, 1000, 1000]

/-- Detector configuration for the grace-period law: every frame sampled,
default area threshold 800 (below the active value 1000), default minimum
duration, and the given grace threshold. -/
def cfgC2 (grace : Nat) : DetectorConfig :=
  { sampleEveryNFrames := 1
    minMotionArea := 800
    backgroundVarThreshold := 16
    endGraceFrames := grace
    minSegmentDuration := 1/2 }

/-! ## Result store (src/database.py) -/

/-- A row of the `videos` table (database.py lines 26-37). -/
structure VideoRow where
  videoHash : String
  videoPath : String
  fileSize : Nat
  lastModified : Nat
  processedAt : Option String
  processingDurationSec : Rat
  hasMotion : Bool
  errorMessage : Option String
deriving DecidableEq

/-- A row of the `motion_segments` table (database.py lines 40-55); the
autoincrement surrogate id and the `created_at` default timestamp are not
modelled. -/
structure SegmentRow where
  videoHash : String
  segmentIndex : Nat
  startTime : String
  endTime : String
  durationSec : Rat
  maxMotionArea : Nat
  detectedObjects : String
  previewCount : Nat
deriving DecidableEq

/-- The SQLite database state: the `videos` table and the `motion_segments`
table. -/
structure Store where
  videos : List VideoRow
  segments : List SegmentRow
deriving DecidableEq

/-- Embedding of `DatabaseManager.is_processed` (database.py lines 82-89):
true iff a `videos` row with this hash has a non-null `processed_at`. -/
def isProcessed (s : Store) (videoHash : String) : Bool :=
  s.videos.any (fun r => r.videoHash == videoHash && r.processedAt.isSome)

/-- Embedding of `DatabaseManager.mark_processed` (database.py lines 99-112).
`INSERT OR REPLACE` with `PRAGMA foreign_keys = ON` first deletes every row
conflicting on the `video_hash` primary key or the `video_path` UNIQUE
constraint, which cascade-deletes the motion segments owned by those rows
(`ON DELETE CASCADE`), and then inserts the fresh row with `processed_at`
set to the current UTC timestamp (passed here as `now`). -/
def markProcessed (s : Store) (videoHash videoPath : String)
    (fileSize lastModified : Nat) (now : String) (processingDuration : Rat)
    (hasMotion : Bool) (errorMessage : Option String) : Store :=
  { videos :=
      s.videos.filter (fun r => !(r.videoHash == videoHash || r.videoPath == videoPath))
        ++ [{ videoHash := videoHash, videoPath := videoPath, fileSize := fileSize,
              lastModified := lastModified, processedAt := some now,
              processingDurationSec := processingDuration, hasMotion := hasMotion,
              errorMessage := errorMessage }]
    segments :=
      s.segments.filter (fun g =>
        !((s.videos.filter (fun r => r.videoHash == videoHash || r.videoPath == videoPath)).any
            (fun r => r.videoHash == g.videoHash))) }

/-- Embedding of `DatabaseManager.add_motion_segment` (database.py lines
114-127): `INSERT OR REPLACE` keyed on `UNIQUE(video_hash, segment_index)`
deletes any row with the same hash and index, then inserts the new row. -/
def addMotionSegment (s : Store) (videoHash : String) (segmentIndex : Nat)
    (startTime endTime : String) (durationSec : Rat) (maxMotionArea : Nat)
    (detectedObjects : String) (previewCount : Nat) : Store :=
  { s with segments :=
      s.segments.filter (fun g =>
        !(g.videoHash == videoHash && g.segmentIndex == segmentIndex))
        ++ [{ videoHash := videoHash, segmentIndex := segmentIndex,
              startTime := startTime, endTime := endTime, durationSec := durationSec,
              maxMotionArea := maxMotionArea, detectedObjects := detectedObjects,
              previewCount := previewCount }] }

/-- Embedding of `DatabaseManager.cleanup_deleted_videos` (database.py lines
129-146): delete every `videos` row whose path is not among the existing
video paths; the foreign-key cascade deletes the motion segments owned by the
deleted rows in the same transaction. -/
def cleanupDeletedVideos (s : Store) (existingVideoPaths : List String) : Store :=
  { videos := s.videos.filter (fun r => existingVideoPaths.contains r.videoPath)
    segments :=
      s.segments.filter (fun g =>
        !((s.videos.filter (fun r => !(existingVideoPaths.contains r.videoPath))).any
            (fun r => r.videoHash == g.videoHash))) }

/-! ## Replace-not-append (claim C5) -/

/-- Field values of one `add_motion_segment` call, as produced from a detected
segment by `MotionProcessor._save_results` (processor.py lines 146-155). -/
structure SegPayload where
  startTime : String
  endTime : String
  durationSec : Rat
  maxMotionArea : Nat
  detectedObjects : String
  previewCount : Nat
deriving DecidableEq

/-- The `for idx, segment in enumerate(segments, 1)` loop of `_save_results`
(and of `run_validation_scan`): insert the new segments with 1-based
contiguous indices starting at `idx`. -/
def addSegmentsFrom (s : Store) (videoHash : String) (idx : Nat) :
    List SegPayload → Store
  | [] => s
  | pl :: rest =>
      addSegmentsFrom
        (addMotionSegment s videoHash idx pl.startTime pl.endTime pl.durationSec
          pl.maxMotionArea pl.detectedObjects pl.previewCount)
        videoHash (idx + 1) rest

/-- The store-level write sequence that persists one successfully analyzed
file: `mark_processed` (with `has_motion` = the new segment list is nonempty)
followed by one `add_motion_segment` per new segment with indices 1,2,... -/
def persistItemResults (s : Store) (videoHash videoPath : String)
    (fileSize lastModified : Nat) (now : String) (processingDuration : Rat)
    (segs : List SegPayload) : Store :=
  addSegmentsFrom
    (markProcessed s videoHash videoPath fileSize lastModified now
      processingDuration (!segs.isEmpty) none)
    videoHash 1 segs

/-- The `motion_segments` rows that the payloads `segs` produce under hash
`videoHash` with indices counting up from `idx`. -/
def segRowsFrom (videoHash : String) (idx : Nat) : List SegPayload → List SegmentRow
  | [] => []
  | pl :: rest =>
      { videoHash := videoHash, segmentIndex := idx, startTime := pl.startTime,
        endTime := pl.endTime, durationSec := pl.durationSec,
        maxMotionArea := pl.maxMotionArea, detectedObjects := pl.detectedObjects,
        previewCount := pl.previewCount } :: segRowsFrom videoHash (idx + 1) rest

/-! ## Processor (src/processor.py) -/

/-- The `VideoFile` dataclass of scanner.py: path, stable path hash, size and
modification time of one catalog item. -/
structure VideoFile where
  path : String
  hash : String
  size : Nat
  modified : Nat
deriving DecidableEq

/-- Python runtime errors raised by the processor paths modelled here. -/
inductive PyError
  | attributeError
  | typeError
deriving DecidableEq

/-- The tuple `(video, segments, metadata, error)` returned by
`process_video_worker` for one item, minus the `video` component (the callers
pair it back with the item).  `metadata = none` models the empty dict `{}`
returned on failure; on success `processing_duration` is added to the
metadata dict. -/
structure WorkerResult where
  segments : List MotionSegment
  metadata : Option VideoMeta
  processingDuration : Rat
  error : Option String
deriving DecidableEq

/-- An initialized `MotionDetector` handle: analysis of a video either
produces segments and metadata or raises an error message (unreadable or
corrupt media).  The actual decoding is external, so the behaviour is a
function of the item. -/
def DetectorHandle : Type :=
  VideoFile → Except String (List MotionSegment × VideoMeta)

/-- The module-level global `_worker_detector` of processor.py (line 16) as it
stands in the orchestrator's own process: it is initialized to `None` and only
`init_worker` — which `Pool` runs inside the spawned worker processes, never
in the caller's process — ever assigns it. -/
def workerDetector : Option DetectorHandle := none

/-- Embedding of `process_video_worker` (processor.py lines 279-294).  When
the detector global is `None`, the attribute access
`_worker_detector.analyze_video` raises `AttributeError`, which the
`except Exception` clause turns into the per-item error result
`(video, [], {}, str(e))`.  `dur` is the wall-clock `time.time()` difference
recorded on success. -/
def processVideoWorker (det : Option DetectorHandle) (dur : Rat)
    (v : VideoFile) : WorkerResult :=
  match det with
  | none =>
      { segments := [], metadata := none, processingDuration := 0,
        error := some "AttributeError: NoneType object has no attribute analyze_video" }
  | some analyze =>
      match analyze v with
      | Except.ok (segs, meta) =>
          { segments := segs, metadata := some meta, processingDuration := dur,
            error := none }
      | Except.error e =>
          { segments := [], metadata := none, processingDuration := 0,
            error := some e }

/-- Embedding of `MotionProcessor._save_results` (processor.py lines 122-164).
The error branch calls `mark_processed` with zero duration, `has_motion=False`
and the error message, and succeeds.  The success branch (lines 139-143) calls
`self.db.mark_processed(..., brightness_level=brightness,
preprocessing_applied=preprocessing)`; `DatabaseManager.mark_processed`
accepts neither keyword, so Python raises `TypeError` at the call site before
any database write, the store is left unchanged and the exception propagates
to the caller (nothing in `_process_sequential`, `_process_parallel` or
`run_scan` catches it). -/
def saveResults (s : Store) (v : VideoFile) (_segments : List MotionSegment)
    (_metadata : Option VideoMeta) (error : Option String) (now : String) :
    Store × Option PyError :=
  match error with
  | some e =>
      (markProcessed s v.hash v.path v.size v.modified now 0 false (some e), none)
  | none => (s, some PyError.typeError)

/-- The outstanding-set computation of `run_scan` (processor.py lines 56-57):
the hashes of catalog items already processed, and the catalog filtered to
the items whose hash is not among them. -/
def videosToProcess (catalog : List VideoFile) (s : Store) : List VideoFile :=
  let processedHashes := (catalog.filter (fun v => isProcessed s v.hash)).map
    (fun v => v.hash)
  catalog.filter (fun v => !(processedHashes.contains v.hash))

/-- The per-completion saving loop shared by `_process_sequential` and
`_process_parallel`: each completed item is saved via `_save_results`; a
`TypeError` raised there aborts the run with the store as written so far
(second component `true`). -/
def processAll (outcome : VideoFile → WorkerResult) (now : String) :
    Store → List VideoFile → Store × Bool
  | s, [] => (s, false)
  | s, v :: rest =>
      let r := outcome v
      match saveResults s v r.segments r.metadata r.error now with
      | (s2, none) => processAll outcome now s2 rest
      | (s2, some _) => (s2, true)

/-- Outcome of one `run_scan` call: the final store (at abort point when the
run aborted), the items dispatched for processing, and whether the run
aborted with an exception. -/
structure RunOutcome where
  store : Store
  dispatched : List VideoFile
  aborted : Bool
deriving DecidableEq

/-- Embedding of `MotionProcessor.run_scan` (processor.py lines 30-85): scan
the catalog, remove store entries for vanished paths, filter to unprocessed
items, return immediately when nothing is outstanding, otherwise process the
outstanding items and save each completion.  The per-item analysis outcome
(sequential or pooled) is the `outcome` parameter; completions are modelled
in list order (the claims proved below do not depend on delivery order). -/
def runScan (catalog : List VideoFile) (outcome : VideoFile → WorkerResult)
    (now : String) (s : Store) : RunOutcome :=
  let s1 := cleanupDeletedVideos s (catalog.map (fun v => v.path))
  let toProcess := videosToProcess catalog s1
  if toProcess.isEmpty then
    { store := s1, dispatched := [], aborted := false }
  else
    let res := processAll outcome now s1 toProcess
    { store := res.1, dispatched := toProcess, aborted := res.2 }

/-- The attribute names defined on `DatabaseManager` instances (database.py
lines 14-197): the two constructor fields and the nine methods of the class.
Neither `get_videos_for_validation` nor `mark_validated` is among them. -/
def databaseManagerAttrs : List String :=
  ["db_path", "logger", "_init_database", "transaction", "is_processed",
   "get_unprocessed_hashes", "mark_processed", "add_motion_segment",
   "cleanup_deleted_videos", "get_all_motion_events", "get_statistics"]

/-- Embedding of `MotionProcessor.run_validation_scan` (processor.py lines
166-270) up to its first store interaction: the very first store call,
`self.db.get_videos_for_validation(rare_objects)` (line 190), is an attribute
lookup on the `DatabaseManager` instance; when the attribute is undefined
Python raises `AttributeError` there, before any video is validated and
before any store write.  On the (counterfactual) success path the function
would return the store and the validated count. -/
def runValidationScan (s : Store) : Except PyError (Store × Nat) :=
  if databaseManagerAttrs.contains "get_videos_for_validation" then
    Except.ok (s, 0)
  else
    Except.error PyError.attributeError

/-- A one-item catalog: path `p1` with identity hash `h1`. -/
def catalogC4 : List VideoFile := [⟨"p1", "h1", 1, 1⟩]

/-- A store in which the catalog item `h1` is processed but which also holds a
processed record for the stale path `p2` that is absent from the catalog. -/
def storeC4 : Store :=
  { videos := [⟨"h1", "p1", 1, 1, some "t0", 0, false, none⟩,
               ⟨"h2", "p2", 1, 1, some "t0", 0, false, none⟩]
    segments := [] }

/-- A per-item outcome in which every analysis fails (irrelevant for runs
that dispatch nothing). -/
def outcomeErr : VideoFile → WorkerResult :=
  fun _ => { segments := [], metadata := none, processingDuration := 0,
             error := some "boom" }

/-- A store holding only the processed record of the catalog item. -/
def storeC4w : Store :=
  { videos := [⟨"h1", "p1", 1, 1, some "t0", 0, false, none⟩], segments := [] }

/-- A store whose record for the stale path `p9` (hash `h9`) owns a segment,
next to the processed record of the catalog item `p1`. -/
def storeC6 : Store :=
  { videos := [⟨"h1", "p1", 1, 1, some "t0", 0, false, none⟩,
               ⟨"h9", "p9", 1, 1, some "t0", 0, true, none⟩]
    segments := [⟨"h9", 1, "0:00:01", "0:00:05", 4, 900, "", 3⟩] }

/-- The stale record of `storeC6`. -/
def rowC6 : VideoRow := ⟨"h9", "p9", 1, 1, some "t0", 0, true, none⟩

/-- A store with a `videos` row for hash `h1` and three stored segments under
it, next to a segment of an unrelated hash. -/
def storeC5 : Store :=
  { videos := [⟨"h1", "p1", 1, 1, some "t0", 0, true, none⟩]
    segments := [⟨"h1", 1, "0:00:01", "0:00:05", 4, 900, "", 3⟩,
                 ⟨"h1", 2, "0:00:20", "0:00:25", 5, 950, "", 5⟩,
                 ⟨"h1", 3, "0:01:00", "0:01:30", 30, 990, "", 5⟩,
                 ⟨"h2", 1, "0:00:02", "0:00:07", 5, 820, "", 2⟩] }

/-- A smaller replacement result set of two segments. -/
def payloadsC5 : List SegPayload :=
  [⟨"0:00:03", "0:00:09", 6, 910, "cat", 4⟩,
   ⟨"0:00:40", "0:00:49", 9, 970, "", 5⟩]

/-! ## Theorems -/

/-- C2 (counterexample): with `endGraceFrames = 6` the detector does NOT emit
exactly one segment on `[0,0,A,A,A,0,0,0,0,0,0,A,A]`: the sixth consecutive
sub-threshold frame makes the grace counter reach the threshold
(`grace_counter >= end_grace_frames` in detector.py line 121), which closes
the segment at frame 11, so two segments — not one — are emitted. -/
theorem c2_counterexample :
    ((analyzeVideo (cfgC2 6) none 1 80 activitySeqC2).1).length = 2 := by
  decide

/-- C2 (amended): on `[0,0,A,A,A,0,0,0,0,0,0,A,A]` with `minArea < A`, a gap
of exactly six sub-threshold frames reaches the grace threshold when
`endGraceFrames = 6`, so the detector emits exactly two segments (frames 3-11
and 12-13); with `endGraceFrames = 5` it also emits exactly two segments; the
gap fails to split the segment only when the threshold exceeds the gap length,
e.g. with `endGraceFrames = 7` exactly one segment spanning frames 3-13 is
emitted. -/
theorem c2_amended :
    (analyzeVideo (cfgC2 6) none 1 80 activitySeqC2).1 =
      [{ startTime := 3, endTime := 11, maxMotionArea := 1000,
         detectedObjects := "", previewFrames := [3, 4, 5] },
       { startTime := 12, endTime := 13, maxMotionArea := 1000,
         detectedObjects := "", previewFrames := [12, 13] }]
    ∧ ((analyzeVideo (cfgC2 5) none 1 80 activitySeqC2).1).length = 2
    ∧ (analyzeVideo (cfgC2 7) none 1 80 activitySeqC2).1 =
      [{ startTime := 3, endTime := 13, maxMotionArea := 1000,
         detectedObjects := "", previewFrames := [3, 4, 5, 12, 13] }] := by
  refine ⟨by decide, by decide, by decide⟩

/-- Replacing a video row whose hash is present cascade-deletes every stored
segment under that hash. -/
theorem markProcessed_segments_hash_free (s : Store) (h p : String) (sz md : Nat)
    (now : String) (dur : Rat) (hm : Bool) (em : Option String)
    (r : VideoRow) (hr : r ∈ s.videos) (hrh : r.videoHash = h) :
    ∀ g ∈ (markProcessed s h p sz md now dur hm em).segments, g.videoHash ≠ h := by
  intro g hg hgh
  simp only [markProcessed] at hg
  have hpred := (List.mem_filter.mp hg).2
  rw [Bool.not_eq_true'] at hpred
  have hany : ((s.videos.filter (fun q => q.videoHash == h || q.videoPath == p)).any
      (fun q => q.videoHash == g.videoHash)) = true := by
    rw [List.any_eq_true]
    exact ⟨r, List.mem_filter.mpr ⟨hr, by simp [hrh]⟩, by simp [hrh, hgh]⟩
  rw [hany] at hpred
  exact Bool.noConfusion hpred

/-- Inserting payloads with fresh indices appends exactly the corresponding
rows, provided every stored row under the same hash has a smaller index. -/
theorem addSegmentsFrom_eq (h : String) :
    ∀ (L : List SegPayload) (s : Store) (i : Nat),
      (∀ g ∈ s.segments, g.videoHash = h → g.segmentIndex < i) →
      (addSegmentsFrom s h i L).segments = s.segments ++ segRowsFrom h i L := by
  intro L
  induction L with
  | nil => intro s i _; simp [addSegmentsFrom, segRowsFrom]
  | cons pl rest ih =>
      intro s i hidx
      have hfil : s.segments.filter
          (fun g => !(g.videoHash == h && g.segmentIndex == i)) = s.segments := by
        rw [List.filter_eq_self]
        intro g hg
        by_cases hzh : g.videoHash = h
        · have hne : g.segmentIndex ≠ i := Nat.ne_of_lt (hidx g hg hzh)
          simp [hne]
        · simp [hzh]
      rw [addSegmentsFrom, ih _ (i + 1) ?_]
      · simp only [addMotionSegment, hfil, segRowsFrom]
        rw [List.append_assoc, List.singleton_append]
      · intro g hg hgh
        simp only [addMotionSegment, hfil] at hg
        rcases List.mem_append.mp hg with hold | hnew
        · exact Nat.lt_succ_of_lt (hidx g hold hgh)
        · rw [List.mem_singleton.mp hnew]
          exact Nat.lt_succ_self i

/-- Every row produced by `segRowsFrom` carries the given hash. -/
theorem segRowsFrom_hash (h : String) :
    ∀ (L : List SegPayload) (i : Nat), ∀ g ∈ segRowsFrom h i L, g.videoHash = h := by
  intro L
  induction L with
  | nil => intro i g hg; simp [segRowsFrom] at hg
  | cons pl rest ih =>
      intro i g hg
      rcases List.mem_cons.mp hg with hgeq | hgm
      · rw [hgeq]
      · exact ih (i + 1) g hgm

/-- C5: for every identity hash already holding a `videos` row (and hence, by
the foreign-key constraint, owning the stored segments under that hash),
persisting a new result set via `mark_processed` followed by the
`add_motion_segment` loop leaves exactly the new segments under that hash:
the `INSERT OR REPLACE` of the parent row cascade-deletes all prior segments,
so none survive — in particular no old segment with an index beyond the new
count. -/
theorem c5_replace_not_append (s : Store) (h p : String) (sz md : Nat)
    (now : String) (dur : Rat) (L : List SegPayload)
    (hrow : ∃ r ∈ s.videos, r.videoHash = h) :
    (persistItemResults s h p sz md now dur L).segments.filter
      (fun g => g.videoHash == h) = segRowsFrom h 1 L := by
  rcases hrow with ⟨r, hr, hrh⟩
  have hfree := markProcessed_segments_hash_free s h p sz md now dur
    (!L.isEmpty) none r hr hrh
  rw [persistItemResults, addSegmentsFrom_eq h L _ 1
    (fun g hg hgh => absurd hgh (hfree g hg))]
  rw [List.filter_append]
  have h1 : (markProcessed s h p sz md now dur (!L.isEmpty) none).segments.filter
      (fun g => g.videoHash == h) = [] := by
    rw [List.filter_eq_nil_iff]
    intro g hg
    simp [hfree g hg]
  have h2 : (segRowsFrom h 1 L).filter (fun g => g.videoHash == h) =
      segRowsFrom h 1 L := by
    rw [List.filter_eq_self]
    intro g hg
    simp [segRowsFrom_hash h L 1 g hg]
  rw [h1, h2, List.nil_append]

/-! ## Claims C1, C3, C10 -/

/-- C1 (code bug): the spec requires each completed item's store writes to be
atomic — the `ProcessingRecord` and all its `MotionSegments` persisted
together or not at all.  For every successfully analyzed item the code
persists nothing at all: `_save_results` raises `TypeError` on its success
branch (`mark_processed` is called with the unsupported keyword arguments
`brightness_level` and `preprocessing_applied`), leaving the store unchanged
and aborting the run, so no successful item's record or segments are ever
written; and had the call succeeded, the record and each segment would be
written in separate transactions rather than one. -/
theorem c1_success_save_raises_type_error (s : Store) (v : VideoFile)
    (segments : List MotionSegment) (metadata : Option VideoMeta) (now : String) :
    saveResults s v segments metadata none now = (s, some PyError.typeError) := by
  rfl

/-- C3 (code bug): with `parallel_workers = 1` the dispatcher does NOT
preserve the parallel pool's output semantics.  `_process_sequential` calls
`process_video_worker` in the orchestrator's own process, where the module
global `_worker_detector` is still `None` (only `Pool`'s `init_worker`
initializer ever sets it, inside worker processes), so every sequential item
yields an `AttributeError` error result with no segments, whereas an
initialized pool worker returns the item's actual segments and metadata. -/
theorem c3_sequential_uninitialized_detector :
    (∀ (dur : Rat) (v : VideoFile),
      (processVideoWorker workerDetector dur v).error.isSome = true)
    ∧ (processVideoWorker workerDetector 1
        { path := "/cam/a.mp4", hash := "h-a", size := 10, modified := 100 } ==
       processVideoWorker
        (some (fun _ => Except.ok
          ([{ startTime := 3, endTime := 11, maxMotionArea := 1000,
              detectedObjects := "", previewFrames := [3, 4, 5] }],
           { brightness := 80, brightnessFactor := "normal",
             thresholds := { minMotionArea := 800, binaryThreshold := 150,
                             backgroundVarThreshold := 16 },
             totalFrames := 13, fps := 1 }))) 1
        { path := "/cam/a.mp4", hash := "h-a", size := 10, modified := 100 }) = false := by
  constructor
  · intro dur v; rfl
  · decide

/-- C10: every invocation of `run_validation_scan` raises `AttributeError`
before completing any validation work, because its first store call is
`get_videos_for_validation` — and it would later call `mark_validated` —
neither of which is defined on `DatabaseManager`. -/
theorem c10_validation_scan_attribute_error :
    databaseManagerAttrs.contains "get_videos_for_validation" = false
    ∧ databaseManagerAttrs.contains "mark_validated" = false
    ∧ ∀ s : Store, runValidationScan s = Except.error PyError.attributeError := by
  refine ⟨by decide, by decide, fun s => ?_⟩
  rfl

/-! ## Claim C4: idempotent skip -/

/-- C4 (counterexample): a store in which every catalog identity hash has
`processedAt` set is NOT necessarily left unchanged by `run_scan`: the
deletion-reconciliation step removes the record of the stale path `p2`
before the skip check, so the store after the run differs from the store
before it even though zero items are dispatched. -/
theorem c4_counterexample :
    catalogC4.all (fun v => isProcessed storeC4 v.hash) = true
    ∧ ((runScan catalogC4 outcomeErr "t1" storeC4).store == storeC4) = false := by
  exact ⟨by decide, by decide⟩

/-- C4 (amended): if every identity hash of the catalog already has
`processedAt` set AND every stored record's path is present in the current
catalog (no stale entries for the reconciliation step to delete), then
`run_scan` dispatches and processes zero items and leaves the store exactly
unchanged. -/
theorem c4_idempotent_skip (catalog : List VideoFile)
    (outcome : VideoFile → WorkerResult) (now : String) (s : Store)
    (hproc : ∀ v ∈ catalog, isProcessed s v.hash = true)
    (hpaths : ∀ r ∈ s.videos, r.videoPath ∈ catalog.map (fun v => v.path)) :
    runScan catalog outcome now s =
      { store := s, dispatched := [], aborted := false } := by
  have hdel : s.videos.filter
      (fun r => !((catalog.map (fun v => v.path)).contains r.videoPath)) = [] := by
    rw [List.filter_eq_nil_iff]
    intro r hr
    simpa using hpaths r hr
  have hclean : cleanupDeletedVideos s (catalog.map (fun v => v.path)) = s := by
    rw [cleanupDeletedVideos, hdel]
    cases s with
    | mk vids segs =>
        simp only [Store.mk.injEq]
        constructor
        · exact List.filter_eq_self.mpr (fun r hr => List.elem_eq_true_of_mem (hpaths r hr))
        · simp
  have hempty : videosToProcess catalog s = [] := by
    rw [videosToProcess]
    rw [List.filter_eq_nil_iff]
    intro v hv2
    simp only [Bool.not_eq_true', Bool.not_eq_false]
    simp
    exact ⟨v, ⟨hv2, hproc v hv2⟩, rfl⟩
  rw [runScan, hclean, hempty]
  simp

/-- Witness for the amended C4 at a concrete catalog and store. -/
theorem c4_idempotent_skip_witness :
    runScan catalogC4 outcomeErr "t1" storeC4w =
      { store := storeC4w, dispatched := [], aborted := false } :=
  c4_idempotent_skip catalogC4 outcomeErr "t1" storeC4w (by decide) (by decide)

/-! ## Claim C6: deletion reconciliation -/

/-- Saving completions only writes rows for the items being saved: if no item
in the queue has path `p` and the store holds no row with path `p` and no
segment with hash `h`, then this still holds after the saving loop (which
only ever deletes segments, and only inserts `videos` rows for queue items). -/
theorem processAll_preserves_absence (outcome : VideoFile → WorkerResult)
    (now : String) :
    ∀ (queue : List VideoFile) (s : Store) (p h : String),
      (∀ v ∈ queue, v.path ≠ p) →
      (∀ r ∈ s.videos, r.videoPath ≠ p) →
      (∀ g ∈ s.segments, g.videoHash ≠ h) →
      (∀ r ∈ (processAll outcome now s queue).1.videos, r.videoPath ≠ p)
      ∧ (∀ g ∈ (processAll outcome now s queue).1.segments, g.videoHash ≠ h) := by
  intro queue
  induction queue with
  | nil =>
      intro s p h _ hvids hsegs
      exact ⟨hvids, hsegs⟩
  | cons v rest ih =>
      intro s p h hq hvids hsegs
      rw [processAll]
      cases herr : (outcome v).error with
      | none =>
          exact ⟨hvids, hsegs⟩
      | some e =>
          refine ih _ p h (fun w hw => hq w (List.mem_cons_of_mem v hw)) ?_ ?_
          · intro r hr
            rw [markProcessed] at hr
            rcases List.mem_append.mp hr with hold | hnew
            · exact hvids r (List.mem_filter.mp hold).1
            · rw [List.mem_singleton.mp hnew]
              exact hq v (List.mem_cons_self v rest)
          · intro g hg
            rw [markProcessed] at hg
            exact hsegs g (List.mem_filter.mp hg).1

/-- Every outstanding item comes from the catalog. -/
theorem videosToProcess_subset (catalog : List VideoFile) (s : Store) :
    ∀ v ∈ videosToProcess catalog s, v ∈ catalog := by
  intro v hv
  rw [videosToProcess] at hv
  exact (List.mem_filter.mp hv).1

/-- C6: if a file present in the store is absent from the next run's catalog,
then after that run (whether it completes or aborts) no `videos` row with its
path and no `motion_segments` row with its hash remains in the store — the
reconciliation step deletes the row by path and the foreign-key cascade
removes its segments — and the reconciliation step leaves every record whose
path is still present in the catalog untouched. -/
theorem c6_deletion_reconciliation (catalog : List VideoFile)
    (outcome : VideoFile → WorkerResult) (now : String) (s : Store)
    (r0 : VideoRow) (hr0 : r0 ∈ s.videos)
    (hpath : r0.videoPath ∉ catalog.map (fun v => v.path)) :
    (∀ r ∈ (runScan catalog outcome now s).store.videos, r.videoPath ≠ r0.videoPath)
    ∧ (∀ g ∈ (runScan catalog outcome now s).store.segments,
        g.videoHash ≠ r0.videoHash)
    ∧ (∀ r ∈ s.videos, r.videoPath ∈ catalog.map (fun v => v.path) →
        r ∈ (cleanupDeletedVideos s (catalog.map (fun v => v.path))).videos) := by
  have hcontains : (catalog.map (fun v => v.path)).contains r0.videoPath = false := by
    cases hcon : (catalog.map (fun v => v.path)).contains r0.videoPath with
    | false => rfl
    | true => exact absurd (List.mem_of_elem_eq_true hcon) hpath
  have hvids1 : ∀ r ∈ (cleanupDeletedVideos s (catalog.map (fun v => v.path))).videos,
      r.videoPath ≠ r0.videoPath := by
    intro r hr hre
    have hpred := (List.mem_filter.mp hr).2
    rw [hre, hcontains] at hpred
    exact Bool.noConfusion hpred
  have hsegs1 : ∀ g ∈ (cleanupDeletedVideos s (catalog.map (fun v => v.path))).segments,
      g.videoHash ≠ r0.videoHash := by
    intro g hg hge
    have hpred := (List.mem_filter.mp hg).2
    rw [Bool.not_eq_true'] at hpred
    have hany : ((s.videos.filter
        (fun r => !((catalog.map (fun v => v.path)).contains r.videoPath))).any
        (fun r => r.videoHash == g.videoHash)) = true := by
      rw [List.any_eq_true]
      refine ⟨r0, List.mem_filter.mpr ⟨hr0, by rw [hcontains]; rfl⟩, ?_⟩
      rw [hge]
      exact beq_self_eq_true r0.videoHash
    rw [hany] at hpred
    exact Bool.noConfusion hpred
  have hqueue : ∀ v ∈ videosToProcess catalog
      (cleanupDeletedVideos s (catalog.map (fun v => v.path))), v.path ≠ r0.videoPath := by
    intro v hv hve
    exact hpath (hve ▸ List.mem_map.mpr ⟨v, videosToProcess_subset _ _ v hv, rfl⟩)
  constructor
  · intro r hr
    rw [runScan] at hr
    revert hr
    split
    · exact fun hr => hvids1 r hr
    · exact fun hr => (processAll_preserves_absence outcome now _ _ _ _
        hqueue hvids1 hsegs1).1 r hr
  constructor
  · intro g hg
    rw [runScan] at hg
    revert hg
    split
    · exact fun hg => hsegs1 g hg
    · exact fun hg => (processAll_preserves_absence outcome now _ _ _ _
        hqueue hvids1 hsegs1).2 g hg
  · intro r hr hrp
    rw [cleanupDeletedVideos]
    exact List.mem_filter.mpr ⟨hr, List.elem_eq_true_of_mem hrp⟩

/-- Witness for C6 at a concrete catalog and store. -/
theorem c6_deletion_reconciliation_witness :
    (∀ r ∈ (runScan catalogC4 outcomeErr "t1" storeC6).store.videos,
      r.videoPath ≠ rowC6.videoPath)
    ∧ (∀ g ∈ (runScan catalogC4 outcomeErr "t1" storeC6).store.segments,
        g.videoHash ≠ rowC6.videoHash)
    ∧ (∀ r ∈ storeC6.videos, r.videoPath ∈ catalogC4.map (fun v => v.path) →
        r ∈ (cleanupDeletedVideos storeC6 (catalogC4.map (fun v => v.path))).videos) :=
  c6_deletion_reconciliation catalogC4 outcomeErr "t1" storeC6 rowC6
    (by decide) (by decide)

/-- Witness for C5: reprocessing `h1` (three stored segments) with a two
segment result leaves exactly those two segments under `h1`. -/
theorem c5_replace_not_append_witness :
    (persistItemResults storeC5 "h1" "p1" 1 1 "t1" 7 payloadsC5).segments.filter
      (fun g => g.videoHash == "h1") = segRowsFrom "h1" 1 payloadsC5 :=
  c5_replace_not_append storeC5 "h1" "p1" 1 1 "t1" 7 payloadsC5 (by decide)

/-! ## Claim C9: failed items are marked processed and never retried -/

/-- C9: saving a failed item's result writes a `videos` row whose
`processed_at` is the current timestamp (non-null) and whose `error_message`
is set; `is_processed` therefore reports the hash as processed, and the item
is excluded from the outstanding set computed by the next run (after its
reconciliation step), so a failed file is never retried automatically. -/
theorem c9_failed_item_never_retried (s : Store) (v : VideoFile)
    (segs : List MotionSegment) (meta : Option VideoMeta) (e now : String)
    (catalog : List VideoFile)
    (hv : v.path ∈ catalog.map (fun c => c.path)) :
    (∃ r ∈ ((saveResults s v segs meta (some e) now).1).videos,
        r.videoHash = v.hash ∧ r.processedAt = some now ∧ r.errorMessage = some e)
    ∧ isProcessed (saveResults s v segs meta (some e) now).1 v.hash = true
    ∧ ∀ w ∈ videosToProcess catalog
        (cleanupDeletedVideos (saveResults s v segs meta (some e) now).1
          (catalog.map (fun c => c.path))),
        w.hash ≠ v.hash := by
  have hmemrow : (⟨v.hash, v.path, v.size, v.modified, some now, 0, false, some e⟩ :
      VideoRow) ∈ ((saveResults s v segs meta (some e) now).1).videos := by
    rw [saveResults, markProcessed]
    exact List.mem_append.mpr (Or.inr (List.mem_singleton.mpr rfl))
  refine ⟨⟨_, hmemrow, rfl, rfl, rfl⟩, ?_, ?_⟩
  · rw [isProcessed, List.any_eq_true]
    exact ⟨_, hmemrow, by simp⟩
  · intro w hw hwh
    have hmem3 : (⟨v.hash, v.path, v.size, v.modified, some now, 0, false, some e⟩ :
        VideoRow) ∈ (cleanupDeletedVideos (saveResults s v segs meta (some e) now).1
          (catalog.map (fun c => c.path))).videos := by
      rw [cleanupDeletedVideos]
      exact List.mem_filter.mpr ⟨hmemrow, List.elem_eq_true_of_mem hv⟩
    have hproc3 : isProcessed (cleanupDeletedVideos (saveResults s v segs meta (some e) now).1
        (catalog.map (fun c => c.path))) w.hash = true := by
      rw [hwh, isProcessed, List.any_eq_true]
      exact ⟨_, hmem3, by simp⟩
    have hwcat : w ∈ catalog := videosToProcess_subset _ _ w hw
    have hpred := (List.mem_filter.mp (by rw [videosToProcess] at hw; exact hw)).2
    rw [Bool.not_eq_true'] at hpred
    have hmemhash : w.hash ∈ (catalog.filter (fun c => isProcessed
        (cleanupDeletedVideos (saveResults s v segs meta (some e) now).1
          (catalog.map (fun c => c.path))) c.hash)).map (fun c => c.hash) :=
      List.mem_map.mpr ⟨w, List.mem_filter.mpr ⟨hwcat, hproc3⟩, rfl⟩
    have hcontra : ((catalog.filter (fun c => isProcessed
        (cleanupDeletedVideos (saveResults s v segs meta (some e) now).1
          (catalog.map (fun c => c.path))) c.hash)).map (fun c => c.hash)).contains
        w.hash = true := List.elem_eq_true_of_mem hmemhash
    rw [hcontra] at hpred
    exact Bool.noConfusion hpred

/-- Witness for C9 at a concrete store, item and catalog. -/
theorem c9_failed_item_never_retried_witness :
    (∃ r ∈ ((saveResults storeC4w ⟨"p3", "h3", 2, 2⟩ [] none (some "corrupt")
        "t2").1).videos,
        r.videoHash = "h3" ∧ r.processedAt = some "t2" ∧ r.errorMessage = some "corrupt")
    ∧ isProcessed (saveResults storeC4w ⟨"p3", "h3", 2, 2⟩ [] none (some "corrupt")
        "t2").1 "h3" = true
    ∧ ∀ w ∈ videosToProcess [⟨"p1", "h1", 1, 1⟩, ⟨"p3", "h3", 2, 2⟩]
        (cleanupDeletedVideos (saveResults storeC4w ⟨"p3", "h3", 2, 2⟩ [] none
          (some "corrupt") "t2").1
          ([⟨"p1", "h1", 1, 1⟩, ⟨"p3", "h3", 2, 2⟩].map (fun c => VideoFile.path c))),
        w.hash ≠ VideoFile.hash ⟨"p3", "h3", 2, 2⟩ :=
  c9_failed_item_never_retried storeC4w ⟨"p3", "h3", 2, 2⟩ [] none "corrupt" "t2"
    [⟨"p1", "h1", 1, 1⟩, ⟨"p3", "h3", 2, 2⟩] (by decide)

/-! ## Claim C7: minimum-duration filter -/

/-- A finalized segment always satisfies the minimum-duration bound. -/
theorem finalizeSegment_some_duration (cfg : DetectorConfig)
    (yolo : Option (Nat → String)) (sd : OpenSegment) (t : Rat)
    (m : MotionSegment) (hm : finalizeSegment cfg yolo sd t = some m) :
    cfg.minSegmentDuration ≤ m.endTime - m.startTime := by
  rw [finalizeSegment] at hm
  split at hm
  · exact Option.noConfusion hm
  · next hnl =>
      rw [← Option.some.inj hm]
      exact le_of_not_lt hnl

/-- One loop transition preserves the minimum-duration bound on the emitted
segment list. -/
theorem applyObservation_duration (cfg : DetectorConfig) (th : Thresholds)
    (yolo : Option (Nat → String)) (frameIdx : Nat) (t : Rat) (area : Nat)
    (cur : Option OpenSegment) (acc : List MotionSegment)
    (hacc : ∀ m ∈ acc, cfg.minSegmentDuration ≤ m.endTime - m.startTime) :
    ∀ m ∈ (applyObservation cfg th yolo frameIdx t area cur acc).2,
      cfg.minSegmentDuration ≤ m.endTime - m.startTime := by
  intro m hm
  rw [applyObservation.eq_def] at hm
  split at hm
  · split at hm <;> exact hacc m hm
  · split at hm
    · exact hacc m hm
    · split at hm
      · split at hm
        · next heq =>
            rcases List.mem_append.mp hm with hold | hnew
            · exact hacc m hold
            · rw [List.mem_singleton.mp hnew]
              exact finalizeSegment_some_duration cfg yolo _ t _ heq
        · exact hacc m hm
      · exact hacc m hm

/-- The whole frame loop preserves the minimum-duration bound. -/
theorem analyzeLoop_duration (cfg : DetectorConfig) (th : Thresholds)
    (yolo : Option (Nat → String)) (fps : Rat) :
    ∀ (frames : List Nat) (frameIdx : Nat) (cur : Option OpenSegment)
      (acc : List MotionSegment),
      (∀ m ∈ acc, cfg.minSegmentDuration ≤ m.endTime - m.startTime) →
      ∀ m ∈ (analyzeLoop cfg th yolo fps frameIdx cur acc frames).2.1,
        cfg.minSegmentDuration ≤ m.endTime - m.startTime := by
  intro frames
  induction frames with
  | nil =>
      intro frameIdx cur acc hacc m hm
      rw [analyzeLoop] at hm
      exact hacc m hm
  | cons area rest ih =>
      intro frameIdx cur acc hacc m hm
      rw [analyzeLoop] at hm
      split at hm
      · exact ih (frameIdx + 1) cur acc hacc m hm
      · exact ih (frameIdx + 1) _ _
          (applyObservation_duration cfg th yolo (frameIdx + 1)
            ((frameIdx + 1 : Nat) / fps) area cur acc hacc) m hm

/-- C7: a candidate segment whose duration at finalization time is below
`min_segment_duration` is discarded entirely (`_finalize_segment` returns
`None`, contributing zero records), and consequently every `MotionSegment`
the detector emits — mid-stream or at end of stream — has duration at least
`min_segment_duration`: no zero-length or truncated record is ever
produced. -/
theorem c7_min_duration_filter (cfg : DetectorConfig)
    (yolo : Option (Nat → String)) (sd : OpenSegment) (endT : Rat)
    (fpsRaw brightness : Rat) (frames : List Nat) :
    (endT - sd.startTime < cfg.minSegmentDuration →
      finalizeSegment cfg yolo sd endT = none)
    ∧ ∀ m ∈ (analyzeVideo cfg yolo fpsRaw brightness frames).1,
        cfg.minSegmentDuration ≤ m.endTime - m.startTime := by
  constructor
  · intro hlt
    rw [finalizeSegment, if_pos hlt]
  · intro m hm
    rw [analyzeVideo] at hm
    have hloop := analyzeLoop_duration cfg (getAdaptiveThresholds cfg brightness)
      yolo (if fpsRaw = 0 then 30 else fpsRaw) frames 0 none []
      (by intro m hm; exact absurd hm (List.not_mem_nil m))
    revert hm
    split
    · next seg heq =>
        split
        · next m2 hfin =>
            intro hm
            rcases List.mem_append.mp hm with hold | hnew
            · exact hloop m hold
            · rw [List.mem_singleton.mp hnew]
              exact finalizeSegment_some_duration cfg yolo _ _ _ hfin
        · exact fun hm => hloop m hm
    · exact fun hm => hloop m hm

/-- Witness for C7: a candidate of duration 0 is discarded, and the first
segment emitted on the grace-law input meets the duration bound. -/
theorem c7_min_duration_filter_witness :
    finalizeSegment (cfgC2 6) none
      { startFrame := 3, startTime := 3, maxArea := 1000, previewFrames := [3],
        graceCounter := 0 } 3 = none
    ∧ (cfgC2 6).minSegmentDuration ≤
        ({ startTime := 3, endTime := 11, maxMotionArea := 1000,
           detectedObjects := "", previewFrames := [3, 4, 5] } : MotionSegment).endTime -
        ({ startTime := 3, endTime := 11, maxMotionArea := 1000,
           detectedObjects := "", previewFrames := [3, 4, 5] } : MotionSegment).startTime :=
  ⟨(c7_min_duration_filter (cfgC2 6) none ⟨3, 3, 1000, [3], 0⟩ 3 1 80 activitySeqC2).1
      (by decide),
   (c7_min_duration_filter (cfgC2 6) none ⟨3, 3, 1000, [3], 0⟩ 3 1 80 activitySeqC2).2
      _ (by decide)⟩

/-! ## Claim C8: brightness-adaptive thresholds -/

/-- Python `int(n * 1.5)` for a natural `n` is `3 * n / 2` in integer
division (the product `n * 1.5` is exactly representable, so the float
truncation matches the rational one). -/
theorem pyInt_scale_toNat (n : Nat) :
    (pyInt ((n : Rat) * 1.5)).toNat = 3 * n / 2 := by
  have h0 : ((n : Rat) * 1.5) = ((3 * n : Nat) : Rat) / ((2 : Nat) : Rat) := by
    push_cast
    ring_nf
  have hnn : ¬ ((n : Rat) * 1.5 < 0) := by
    rw [not_lt, h0]
    positivity
  rw [pyInt, if_neg hnn, Int.floor_toNat, h0, Nat.floor_div_nat, Nat.floor_natCast]

/-- C8: when the ambient-brightness estimate is below the cutoff 60, the
effective minimum-motion-area threshold equals the configured
`min_motion_area` scaled by 1.5 (with Python's `int()` truncation); at or
above the cutoff the configured defaults are used unchanged; and with the
default configuration there is an activity-area value (800) that is
classified as motion (`max_area >= thresholds["min_motion_area"]`) under the
normal profile but not under the low-brightness profile. -/
theorem c8_brightness_adaptation (cfg : DetectorConfig) (b : Rat) :
    (b < 60 → (getAdaptiveThresholds cfg b).minMotionArea = 3 * cfg.minMotionArea / 2)
    ∧ (60 ≤ b → getAdaptiveThresholds cfg b =
        { minMotionArea := cfg.minMotionArea, binaryThreshold := 150,
          backgroundVarThreshold := cfg.backgroundVarThreshold })
    ∧ (800 ≥ (getAdaptiveThresholds {} 80).minMotionArea
        ∧ 800 < (getAdaptiveThresholds {} 50).minMotionArea) := by
  refine ⟨fun hb => ?_, fun hb => ?_, by decide, by decide⟩
  · rw [getAdaptiveThresholds, if_pos hb]
    exact pyInt_scale_toNat cfg.minMotionArea
  · rw [getAdaptiveThresholds, if_neg (not_lt.mpr hb)]

/-- Witness for C8 at brightness estimates 50 (dark) and 80 (normal) with
the default configuration. -/
theorem c8_brightness_adaptation_witness :
    (getAdaptiveThresholds {} 50).minMotionArea =
      3 * DetectorConfig.minMotionArea {} / 2
    ∧ getAdaptiveThresholds {} 80 =
      { minMotionArea := DetectorConfig.minMotionArea {}, binaryThreshold := 150,
        backgroundVarThreshold := DetectorConfig.backgroundVarThreshold {} } :=
  ⟨(c8_brightness_adaptation {} 50).1 (by norm_num),
   (c8_brightness_adaptation {} 80).2.1 (by norm_num)⟩
